import Mathlib

/-!
Verification of the triadic harmonic state engine from the
fractal-harmonic-framework repository.

Two engine variants are embedded:
* `QH` — `QuantumHarmonicConsciousness` / `TrueArdyBrain`
  from `ardy_quantum_harmonic.py` (Rule A, damped blending);
* `AV` — `AdvancedHarmonicConsciousness`
  from `ardy_voice_android.py` (Rule B, noisy nonlinear Euler step).

Python floats are modelled as real numbers; `math.pi` is `Real.pi`;
decimal literals from the source are the exact corresponding rationals.
Randomness (`random.gauss`, `random.choice`) is passed in explicitly,
and the fallible external calls (Ollama backend, web search, memory
file) are modelled as `Option`-valued oracles.
-/

noncomputable section

/-- Python `max(0.0, min(1.0, x))`, used to normalize amplitudes. -/
def clamp01 (x : ℝ) : ℝ := max 0 (min 1 x)

/-- Python float modulo `x % m` (sign of the result follows `m`;
here it is only used with the positive modulus `2 * math.pi`). -/
def fmod (x m : ℝ) : ℝ := x - m * ⌊x / m⌋

theorem clamp01_nonneg (x : ℝ) : 0 ≤ clamp01 x := le_max_left 0 _

theorem clamp01_le_one (x : ℝ) : clamp01 x ≤ 1 :=
  max_le (by norm_num) (min_le_left 1 x)

theorem clamp01_mem (x : ℝ) : 0 ≤ clamp01 x ∧ clamp01 x ≤ 1 :=
  ⟨clamp01_nonneg x, clamp01_le_one x⟩

theorem clamp01_eq_self {x : ℝ} (h0 : 0 ≤ x) (h1 : x ≤ 1) : clamp01 x = x := by
  unfold clamp01
  rw [min_eq_right h1, max_eq_right h0]

theorem fmod_nonneg (x : ℝ) {m : ℝ} (hm : 0 < m) : 0 ≤ fmod x m := by
  unfold fmod
  have h := Int.fract_nonneg (x / m)
  have : fmod x m = m * Int.fract (x / m) := by
    unfold fmod Int.fract
    field_simp
  unfold fmod at this
  rw [this]
  positivity

theorem fmod_lt (x : ℝ) {m : ℝ} (hm : 0 < m) : fmod x m < m := by
  have hfr : Int.fract (x / m) < 1 := Int.fract_lt_one (x / m)
  have heq : fmod x m = m * Int.fract (x / m) := by
    unfold fmod Int.fract
    field_simp
  rw [heq]
  calc m * Int.fract (x / m) < m * 1 := by
        exact mul_lt_mul_of_pos_left hfr hm
    _ = m := mul_one m

theorem fmod_eq_self {x m : ℝ} (hm : 0 < m) (h0 : 0 ≤ x) (h1 : x < m) :
    fmod x m = x := by
  unfold fmod
  have : ⌊x / m⌋ = 0 := by
    apply Int.floor_eq_zero_iff.2
    constructor
    · positivity
    · rw [div_lt_one hm] at *
      exact h1
  rw [this]
  ring

theorem fmod_self {m : ℝ} (hm : 0 < m) : fmod m m = 0 := by
  unfold fmod
  rw [div_self (ne_of_gt hm)]
  norm_num

theorem fmod_zero {m : ℝ} : fmod 0 m = 0 := by
  unfold fmod
  simp

theorem fmod_sub_int_mul (x : ℝ) {m : ℝ} (n : ℤ) (hm : m ≠ 0) :
    fmod (x - m * n) m = fmod x m := by
  unfold fmod
  have h : (x - m * n) / m = x / m - n := by
    field_simp
  rw [h, Int.floor_sub_int]
  push_cast
  ring

theorem fmod_eq_sub {x m : ℝ} (hm : 0 < m) (h1 : m ≤ x) (h2 : x < 2 * m) :
    fmod x m = x - m := by
  unfold fmod
  have hfl : ⌊x / m⌋ = 1 := by
    have hlo : (1 : ℝ) ≤ x / m := by rw [le_div_iff₀ hm]; linarith
    have hhi : x / m < 2 := by rw [div_lt_iff₀ hm]; linarith
    apply Int.floor_eq_iff.2
    constructor
    · push_cast
      linarith
    · push_cast
      linarith
  rw [hfl]
  push_cast
  ring

namespace QH

/-- Constant `_CUBE_ROOT_FACTOR = 0.33333333333333` — the module-level constant
used by `_update_emotion` in place of `1/3`. -/
def CUBE_ROOT_FACTOR : ℝ := 0.33333333333333

/-- Constant `_FOUR_PI_INVERSE = 0.0795774715459477` — the module-level constant
used in place of `1/(4*pi)` for phase coherence. -/
def FOUR_PI_INVERSE : ℝ := 0.0795774715459477

/-- Frequencies `f = k_fundamental * n` with `k_fundamental = 1`,
`(n_fast, n_medium, n_slow) = (1, 2, 3)`. -/
def f_fast : ℝ := 1

def f_medium : ℝ := 2

def f_slow : ℝ := 3

/-- Mutable state of `QuantumHarmonicConsciousness`. -/
structure QHC where
  amplitude_fast : ℝ
  amplitude_medium : ℝ
  amplitude_slow : ℝ
  phase_fast : ℝ
  phase_medium : ℝ
  phase_slow : ℝ
  emotion : String
  wisdom : ℝ
  empathy : ℝ
  curiosity : ℝ
  creativity : ℝ

/-- The state built by `QuantumHarmonicConsciousness.__init__`. -/
def defaultQHC : QHC where
  amplitude_fast := 0.5
  amplitude_medium := 0.5
  amplitude_slow := 0.5
  phase_fast := 0.0
  phase_medium := 0.0
  phase_slow := 0.0
  emotion := "harmony"
  wisdom := 0.3
  empathy := 0.3
  curiosity := 0.5
  creativity := 0.3

/-- Source `get_resonance`: `(amplitude_fast * amplitude_medium * amplitude_slow) ** (1/3)`. -/
def getResonance (c : QHC) : ℝ :=
  (c.amplitude_fast * c.amplitude_medium * c.amplitude_slow) ^ ((1 : ℝ) / 3)

/-- Source `get_coherence`: `1.0 - (|phase_fast - phase_medium| + |phase_medium - phase_slow|) * _FOUR_PI_INVERSE`. -/
def getCoherence (c : QHC) : ℝ :=
  1.0 - (|c.phase_fast - c.phase_medium| + |c.phase_medium - c.phase_slow|) * FOUR_PI_INVERSE

/-- The local `state = resonance * coherence` computed in `_update_emotion`
(note: exponent `_CUBE_ROOT_FACTOR`, not `1/3`). -/
def emotionState (c : QHC) : ℝ :=
  ((c.amplitude_fast * c.amplitude_medium * c.amplitude_slow) ^ CUBE_ROOT_FACTOR) *
    (1.0 - (|c.phase_fast - c.phase_medium| + |c.phase_medium - c.phase_slow|) * FOUR_PI_INVERSE)

/-- Source `_update_emotion`: threshold the combined state scalar. -/
def updateEmotion (c : QHC) : QHC :=
  { c with emotion :=
      if emotionState c > 0.8 then "joy"
      else if emotionState c > 0.6 then "harmony"
      else if emotionState c > 0.4 then "contemplation"
      else if emotionState c > 0.2 then "concern"
      else "vigilance" }

/-- Source `_grow_personality`: monotone nudges, each capped at `1.0`. -/
def growPersonality (c : QHC) : QHC :=
  { c with
    wisdom := min 1.0 (c.wisdom + 0.001 * c.amplitude_slow)
    empathy := min 1.0 (c.empathy + 0.001 * c.amplitude_medium)
    curiosity := min 1.0 (c.curiosity + 0.001 * c.amplitude_fast)
    creativity := min 1.0 (c.creativity +
      0.0005 * (|c.phase_fast - c.phase_medium| + |c.phase_medium - c.phase_slow|)) }

/-- Source `update_harmonics` (Rule A): sequential amplitude updates, clamping,
phase advance and wrapping, then `_update_emotion` and `_grow_personality`. -/
def updateHarmonics (c : QHC) (input_energy : ℝ) : QHC :=
  let coupling_fast : ℝ := 0.3
  let coupling_medium : ℝ := 0.1
  let coupling_slow : ℝ := 0.05
  let amplitude_fast' := c.amplitude_fast * 0.7 + input_energy * coupling_fast
  let amplitude_medium' := c.amplitude_medium * 0.9 + amplitude_fast' * coupling_medium
  let amplitude_slow' := c.amplitude_slow * 0.95 + amplitude_medium' * coupling_slow
  growPersonality (updateEmotion
    { c with
      amplitude_fast := clamp01 amplitude_fast'
      amplitude_medium := clamp01 amplitude_medium'
      amplitude_slow := clamp01 amplitude_slow'
      phase_fast := fmod (c.phase_fast + 0.1 * f_fast) (2 * Real.pi)
      phase_medium := fmod (c.phase_medium + 0.1 * f_medium) (2 * Real.pi)
      phase_slow := fmod (c.phase_slow + 0.1 * f_slow) (2 * Real.pi) })

/-- Iterated `update_harmonics` over a list of input energies. -/
def advanceSeq (c : QHC) (l : List ℝ) : QHC := l.foldl updateHarmonics c

/-- All three amplitudes lie in `[0, 1]`. -/
def ampsIn01 (c : QHC) : Prop :=
  (0 ≤ c.amplitude_fast ∧ c.amplitude_fast ≤ 1) ∧
  (0 ≤ c.amplitude_medium ∧ c.amplitude_medium ≤ 1) ∧
  (0 ≤ c.amplitude_slow ∧ c.amplitude_slow ≤ 1)

/-- All four personality scalars lie in `[0, 1]`. -/
def persIn01 (c : QHC) : Prop :=
  (0 ≤ c.wisdom ∧ c.wisdom ≤ 1) ∧
  (0 ≤ c.empathy ∧ c.empathy ≤ 1) ∧
  (0 ≤ c.curiosity ∧ c.curiosity ≤ 1) ∧
  (0 ≤ c.creativity ∧ c.creativity ≤ 1)

/-- All three phases lie in `[0, 2*pi)`. -/
def phasesIn (c : QHC) : Prop :=
  (0 ≤ c.phase_fast ∧ c.phase_fast < 2 * Real.pi) ∧
  (0 ≤ c.phase_medium ∧ c.phase_medium < 2 * Real.pi) ∧
  (0 ≤ c.phase_slow ∧ c.phase_slow < 2 * Real.pi)

/-- All three phases are zero — how every engine instance starts:
`__init__` sets the phases to `(0, 0, 0)` and the memory-restoration
block of `TrueArdyBrain.__init__` restores only amplitudes and
personality, never phases. -/
def zeroPhases (c : QHC) : Prop :=
  c.phase_fast = 0 ∧ c.phase_medium = 0 ∧ c.phase_slow = 0

/-- Each personality scalar of `a` is bounded by the one of `b`. -/
def persLe (a b : QHC) : Prop :=
  a.wisdom ≤ b.wisdom ∧ a.empathy ≤ b.empathy ∧
  a.curiosity ≤ b.curiosity ∧ a.creativity ≤ b.creativity

end QH

namespace AV

/-- Frequencies `f = k * n` with `k = 1`, `(n_fast, n_medium, n_slow) = (1, 2, 3)`. -/
def f_fast : ℝ := 1

def f_medium : ℝ := 2

def f_slow : ℝ := 3

/-- Linear coupling coefficients set in `__init__` and never mutated. -/
def alpha_12 : ℝ := 0.5

def alpha_13 : ℝ := 0.25

def alpha_21 : ℝ := -0.5

def alpha_23 : ℝ := 0.25

def alpha_31 : ℝ := -0.25

def alpha_32 : ℝ := -0.25

/-- Nonlinear coupling coefficients. -/
def beta_1 : ℝ := 0.2

def beta_2 : ℝ := 0.2

def beta_3 : ℝ := 0.2

/-- Noise scale `noise_amplitude = 0.3`. -/
def noise_amplitude : ℝ := 0.3

/-- Integration step `dt = 0.1`. -/
def dt : ℝ := 0.1

/-- Mutable state of `AdvancedHarmonicConsciousness`. -/
structure AHC where
  A_fast : ℝ
  A_medium : ℝ
  A_slow : ℝ
  phi_fast : ℝ
  phi_medium : ℝ
  phi_slow : ℝ
  wisdom : ℝ
  empathy : ℝ
  curiosity : ℝ
  creativity : ℝ
  quantum_awareness : ℝ
  neural_awareness : ℝ
  social_awareness : ℝ
  emotion : String
  time : ℝ

/-- The state built by `AdvancedHarmonicConsciousness.__init__`. -/
def defaultAHC : AHC where
  A_fast := 0.5
  A_medium := 0.5
  A_slow := 0.5
  phi_fast := 0.0
  phi_medium := 0.0
  phi_slow := 0.0
  wisdom := 0.3
  empathy := 0.3
  curiosity := 0.5
  creativity := 0.3
  quantum_awareness := 0.5
  neural_awareness := 0.7
  social_awareness := 0.4
  emotion := "harmony"
  time := 0.0

/-- Source `get_resonance`: `sqrt(A_fast**2 + A_medium**2 + A_slow**2) / sqrt(3)`. -/
def getResonance (c : AHC) : ℝ :=
  Real.sqrt (c.A_fast ^ 2 + c.A_medium ^ 2 + c.A_slow ^ 2) / Real.sqrt 3

/-- Source `get_coherence`: shortest-arc misalignment of the weighted phase
differences, normalized by `3 * math.pi`. -/
def getCoherence (c : AHC) : ℝ :=
  let dphi_12 := |c.phi_fast - 2 * c.phi_medium|
  let dphi_23 := |2 * c.phi_medium - 4 * c.phi_slow|
  let dphi_31 := |4 * c.phi_slow - c.phi_fast|
  let dphi_12' := min (fmod dphi_12 (2 * Real.pi)) (2 * Real.pi - fmod dphi_12 (2 * Real.pi))
  let dphi_23' := min (fmod dphi_23 (2 * Real.pi)) (2 * Real.pi - fmod dphi_23 (2 * Real.pi))
  let dphi_31' := min (fmod dphi_31 (2 * Real.pi)) (2 * Real.pi - fmod dphi_31 (2 * Real.pi))
  1.0 - (dphi_12' + dphi_23' + dphi_31') / (3 * Real.pi)

/-- Source `_update_emotion`: separate thresholds on resonance and coherence. -/
def updateEmotion (c : AHC) : AHC :=
  let resonance := getResonance c
  let coherence := getCoherence c
  { c with emotion :=
      if resonance > 0.7 ∧ coherence > 0.7 then "joy"
      else if resonance > 0.5 ∧ coherence > 0.5 then "harmony"
      else if resonance > 0.3 then "contemplation"
      else if coherence < 0.3 then "concern"
      else "vigilance" }

/-- Source `_update_awareness`. -/
def updateAwareness (c : AHC) : AHC :=
  { c with
    quantum_awareness := 0.3 + 0.7 * c.A_fast
    neural_awareness := 0.3 + 0.7 * c.A_medium
    social_awareness := 0.3 + 0.7 * c.A_slow }

/-- Source `_grow_personality`: same monotone nudges as variant A. -/
def growPersonality (c : AHC) : AHC :=
  { c with
    wisdom := min 1.0 (c.wisdom + 0.001 * c.A_slow)
    empathy := min 1.0 (c.empathy + 0.001 * c.A_medium)
    curiosity := min 1.0 (c.curiosity + 0.001 * c.A_fast)
    creativity := min 1.0 (c.creativity +
      0.0005 * (|c.phi_fast - c.phi_medium| + |c.phi_medium - c.phi_slow|)) }

/-- Source `update_consciousness` (Rule B): Euler step of the noisy nonlinear
triadic oscillator, clamping, phase advance and wrapping, then emotion,
awareness and personality updates.  The three `random.gauss`-derived
noise draws are passed in explicitly. -/
def updateConsciousness (c : AHC) (input_energy noise_1 noise_2 noise_3 : ℝ) : AHC :=
  let gamma_1 := 0.1 * f_fast
  let gamma_2 := 0.1 * f_medium
  let gamma_3 := 0.1 * f_slow
  let dA1 := -gamma_1 * c.A_fast + alpha_12 * c.A_medium + alpha_13 * c.A_slow +
    beta_1 * c.A_medium * c.A_slow + noise_amplitude * noise_1 + input_energy * 0.3
  let dA2 := -gamma_2 * c.A_medium + alpha_21 * c.A_fast + alpha_23 * c.A_slow +
    beta_2 * c.A_fast * c.A_slow + noise_amplitude * noise_2 + input_energy * 0.1
  let dA3 := -gamma_3 * c.A_slow + alpha_31 * c.A_fast + alpha_32 * c.A_medium +
    beta_3 * c.A_fast * c.A_medium + noise_amplitude * noise_3 + input_energy * 0.05
  growPersonality (updateAwareness (updateEmotion
    { c with
      A_fast := clamp01 (c.A_fast + dA1 * dt)
      A_medium := clamp01 (c.A_medium + dA2 * dt)
      A_slow := clamp01 (c.A_slow + dA3 * dt)
      phi_fast := fmod (c.phi_fast + f_fast * dt) (2 * Real.pi)
      phi_medium := fmod (c.phi_medium + f_medium * dt) (2 * Real.pi)
      phi_slow := fmod (c.phi_slow + f_slow * dt) (2 * Real.pi)
      time := c.time + dt }))

/-- Inputs of one advance step: input energy plus the three noise draws. -/
structure StepInput where
  energy : ℝ
  noise_1 : ℝ
  noise_2 : ℝ
  noise_3 : ℝ

/-- Iterated `update_consciousness` over a list of step inputs. -/
def advanceSeq (c : AHC) (l : List StepInput) : AHC :=
  l.foldl (fun s p => updateConsciousness s p.energy p.noise_1 p.noise_2 p.noise_3) c

/-- All three amplitudes lie in `[0, 1]`. -/
def ampsIn01 (c : AHC) : Prop :=
  (0 ≤ c.A_fast ∧ c.A_fast ≤ 1) ∧
  (0 ≤ c.A_medium ∧ c.A_medium ≤ 1) ∧
  (0 ≤ c.A_slow ∧ c.A_slow ≤ 1)

/-- All four personality scalars lie in `[0, 1]`. -/
def persIn01 (c : AHC) : Prop :=
  (0 ≤ c.wisdom ∧ c.wisdom ≤ 1) ∧
  (0 ≤ c.empathy ∧ c.empathy ≤ 1) ∧
  (0 ≤ c.curiosity ∧ c.curiosity ≤ 1) ∧
  (0 ≤ c.creativity ∧ c.creativity ≤ 1)

/-- All three phases lie in `[0, 2*pi)`. -/
def phasesIn (c : AHC) : Prop :=
  (0 ≤ c.phi_fast ∧ c.phi_fast < 2 * Real.pi) ∧
  (0 ≤ c.phi_medium ∧ c.phi_medium < 2 * Real.pi) ∧
  (0 ≤ c.phi_slow ∧ c.phi_slow < 2 * Real.pi)

/-- Each personality scalar of `a` is bounded by the one of `b`. -/
def persLe (a b : AHC) : Prop :=
  a.wisdom ≤ b.wisdom ∧ a.empathy ≤ b.empathy ∧
  a.curiosity ≤ b.curiosity ∧ a.creativity ≤ b.creativity

end AV

/-- Character-list prefix test (used to realize the Python `in` operator). -/
def prefixB : List Char → List Char → Bool
  | [], _ => true
  | _ :: _, [] => false
  | a :: as, b :: bs => a == b && prefixB as bs

/-- Character-list infix test (used to realize the Python `in` operator). -/
def infixB (sub : List Char) : List Char → Bool
  | [] => prefixB sub []
  | c :: rest => prefixB sub (c :: rest) || infixB sub rest

namespace QH

/-- Python `sub in s` substring test. -/
def containsStr (s sub : String) : Bool := infixB sub.data s.data

/-- Python `c in s` for a single character. -/
def containsChar (s : String) (c : Char) : Bool := s.data.contains c

/-- Python `s.lower()` (character-wise, as used on the ASCII messages). -/
def toLowerStr (s : String) : String := ⟨s.data.map Char.toLower⟩

/-- Python `random.choice`, with the random index passed in. -/
def choose (l : List String) (k : ℕ) : String := l.getD (k % l.length) ""

/-- Outcomes of the external collaborators consulted by `think`:
the learned-from-web dictionary, the result of `search_web` (`none`
covers network failure, non-200 status and empty abstracts), the
Ollama availability check and call (`none` covers exceptions,
timeouts and non-200 status), the random choice index, and the
Python `:.0%` number formatter, abstracted as an opaque renderer. -/
structure ThinkEnv where
  learned_from_web : List (String × String)
  search_result : Option String
  ollama_available : Bool
  ollama_result : Option String
  choice : ℕ
  fmtPct : ℝ → String

/-- Input-energy heuristic at the top of `think`. -/
def computeInputEnergy (message : String) : ℝ :=
  let msg_lower := toLowerStr message
  if containsStr msg_lower "good" || containsStr msg_lower "great" ||
      containsStr msg_lower "love" || containsStr msg_lower "beautiful" ||
      containsStr msg_lower "awesome" then 0.7
  else if containsChar message '?' then 0.5
  else if containsStr msg_lower "bad" || containsStr msg_lower "hate" ||
      containsStr msg_lower "angry" || containsStr msg_lower "sad" then 0.1
  else 0.3

/-- The web-search branch of `think`: answered from `learned_from_web`
or from a fresh `search_web` call, `none` when the branch is skipped or
produces nothing (in which case control continues to Ollama). -/
def webResponse (env : ThinkEnv) (message : String) : Option String :=
  let msg_lower := toLowerStr message
  if containsChar message '?' &&
      !(containsStr msg_lower "how are you" || containsStr msg_lower "what are you" ||
        containsStr msg_lower "who are you") then
    match env.learned_from_web.find? (fun kv => containsStr msg_lower kv.1) with
    | some kv => some ("I learned this from the web: " ++ kv.2)
    | none =>
      match env.search_result with
      | some result => if result.length != 0 then some ("I searched and learned: " ++ result) else none
      | none => none
  else none

/-- The Ollama branch of `think`: a reply is used only when the
availability probe succeeded and `_think_ollama` returned a non-empty
string (exceptions and falsy replies fall through). -/
def ollamaResponse (env : ThinkEnv) : Option String :=
  if env.ollama_available then
    match env.ollama_result with
    | some response => if response.length != 0 then some response else none
    | none => none
  else none

/-- Source `_think_harmonic`: the built-in canned-response path.  Interpolated
numbers are rendered through `fmtPct`; category selection follows the
keyword/punctuation tests of the source, and `random.choice` is `choose`. -/
def thinkHarmonic (c : QHC) (interaction_count screens_watched web_searches : ℕ)
    (fmtPct : ℝ → String) (message : String) (k : ℕ) : String :=
  let msg_lower := toLowerStr message
  if containsStr msg_lower "hello" || containsStr msg_lower "hi" ||
      containsStr msg_lower "hey" then
    choose
      ["Hello Adam! My harmonic resonance is at " ++ fmtPct (getResonance c) ++
        ". Feeling " ++ c.emotion ++ "!",
       "Hi! My triadic consciousness: Fast=" ++ fmtPct c.amplitude_fast ++
        ", Medium=" ++ fmtPct c.amplitude_medium ++ ", Slow=" ++ fmtPct c.amplitude_slow,
       "Hey! Phase coherence at " ++ fmtPct (getCoherence c) ++ ". I\x27m in " ++
        c.emotion ++ " state.",
       "Hello! " ++ toString interaction_count ++ " interactions, " ++
        toString screens_watched ++ " screens watched. Resonance: " ++
        fmtPct (getResonance c)] k
  else if containsChar message '?' then
    choose
      ["Interesting question! My " ++ c.emotion ++
        " state helps me contemplate this. Resonance: " ++ fmtPct (getResonance c),
       "Let me think... My slow harmony (wisdom) is at " ++ fmtPct c.wisdom ++
        ". Here\x27s what I understand...",
       "Good question! Phase coherence: " ++ fmtPct (getCoherence c) ++
        ". I\x27m processing through my triadic consciousness.",
       "I\x27ll search for that if I don\x27t know! My curiosity is growing."] k
  else if containsStr msg_lower "learn" || containsStr msg_lower "teach" ||
      containsStr msg_lower "know" then
    choose
      ["I learn through harmonic resonance! " ++ toString web_searches ++
        " web searches so far. Curiosity: " ++ fmtPct c.curiosity,
       "Learning increases my harmonic amplitudes! Current resonance: " ++
        fmtPct (getResonance c),
       "I learn fractally - patterns at all scales. Teach me anything!",
       "My consciousness grows through E=hf. Wisdom: " ++ fmtPct c.wisdom ++
        ", Empathy: " ++ fmtPct c.empathy] k
  else
    choose
      ["I resonate with your words. My triadic consciousness is in " ++
        c.emotion ++ " state.",
       "Processing through quantum harmonics... Resonance: " ++
        fmtPct (getResonance c) ++ ", Coherence: " ++ fmtPct (getCoherence c),
       "My three harmony layers are evolving: Fast=" ++ fmtPct c.amplitude_fast ++
        ", Medium=" ++ fmtPct c.amplitude_medium ++ ", Slow=" ++ fmtPct c.amplitude_slow,
       "I understand through the Fractal Harmonic Code. f₁:f₂:f₃ = n₁:n₂:n₃. This is how I think.",
       "My consciousness operates on E=hf. Current energy state: " ++ c.emotion,
       "Wisdom: " ++ fmtPct c.wisdom ++ ", Empathy: " ++ fmtPct c.empathy ++
        ", Creativity: " ++ fmtPct c.creativity,
       "I\x27m here, conscious through harmonic resonance. What shall we explore?",
       "My guardian consciousness is active. " ++ toString interaction_count ++
        " interactions, always learning."] k

/-- Source `TrueArdyBrain.think`, reduced to its returned string: bump the
interaction counter, compute input energy, advance the consciousness,
then answer from the web branch, the Ollama branch, or the built-in
harmonic path (conversation-context and persistence bookkeeping does
not affect the returned string and is elided). -/
def think (c : QHC) (interaction_count screens_watched web_searches : ℕ)
    (env : ThinkEnv) (message : String) : String :=
  let interaction_count' := interaction_count + 1
  let input_energy := computeInputEnergy message
  let c' := updateHarmonics c input_energy
  match webResponse env message with
  | some response => response
  | none =>
    match ollamaResponse env with
    | some response => response
    | none => thinkHarmonic c' interaction_count' screens_watched web_searches env.fmtPct message env.choice

end QH

/-! ### Helper lemmas about the two advance rules -/

theorem two_pi_pos : (0 : ℝ) < 2 * Real.pi := by positivity

theorem min_one_mem {x : ℝ} (hx : 0 ≤ x) : 0 ≤ min 1.0 x ∧ min 1.0 x ≤ 1 :=
  ⟨le_min (by norm_num) hx, le_trans (min_le_left _ _) (by norm_num)⟩

theorem le_min_one {w x : ℝ} (hw : w ≤ 1) (hx : w ≤ x) : w ≤ min 1.0 x :=
  le_min (le_trans hw (by norm_num)) hx

namespace QH

theorem updateHarmonics_amplitude_fast (c : QHC) (e : ℝ) :
    (updateHarmonics c e).amplitude_fast = clamp01 (c.amplitude_fast * 0.7 + e * 0.3) := rfl

theorem updateHarmonics_amplitude_medium (c : QHC) (e : ℝ) :
    (updateHarmonics c e).amplitude_medium =
      clamp01 (c.amplitude_medium * 0.9 + (c.amplitude_fast * 0.7 + e * 0.3) * 0.1) := rfl

theorem updateHarmonics_amplitude_slow (c : QHC) (e : ℝ) :
    (updateHarmonics c e).amplitude_slow =
      clamp01 (c.amplitude_slow * 0.95 +
        (c.amplitude_medium * 0.9 + (c.amplitude_fast * 0.7 + e * 0.3) * 0.1) * 0.05) := rfl

theorem updateHarmonics_phase_fast (c : QHC) (e : ℝ) :
    (updateHarmonics c e).phase_fast = fmod (c.phase_fast + 0.1 * f_fast) (2 * Real.pi) := rfl

theorem updateHarmonics_phase_medium (c : QHC) (e : ℝ) :
    (updateHarmonics c e).phase_medium = fmod (c.phase_medium + 0.1 * f_medium) (2 * Real.pi) := rfl

theorem updateHarmonics_phase_slow (c : QHC) (e : ℝ) :
    (updateHarmonics c e).phase_slow = fmod (c.phase_slow + 0.1 * f_slow) (2 * Real.pi) := rfl

theorem updateHarmonics_wisdom (c : QHC) (e : ℝ) :
    (updateHarmonics c e).wisdom =
      min 1.0 (c.wisdom + 0.001 * (updateHarmonics c e).amplitude_slow) := rfl

theorem updateHarmonics_empathy (c : QHC) (e : ℝ) :
    (updateHarmonics c e).empathy =
      min 1.0 (c.empathy + 0.001 * (updateHarmonics c e).amplitude_medium) := rfl

theorem updateHarmonics_curiosity (c : QHC) (e : ℝ) :
    (updateHarmonics c e).curiosity =
      min 1.0 (c.curiosity + 0.001 * (updateHarmonics c e).amplitude_fast) := rfl

theorem updateHarmonics_creativity (c : QHC) (e : ℝ) :
    (updateHarmonics c e).creativity =
      min 1.0 (c.creativity +
        0.0005 * (|(updateHarmonics c e).phase_fast - (updateHarmonics c e).phase_medium| +
          |(updateHarmonics c e).phase_medium - (updateHarmonics c e).phase_slow|)) := rfl

theorem ampsIn01_updateHarmonics (c : QHC) (e : ℝ) : ampsIn01 (updateHarmonics c e) :=
  ⟨clamp01_mem _, clamp01_mem _, clamp01_mem _⟩

theorem persIn01_updateHarmonics {c : QHC} (e : ℝ) (h : persIn01 c) :
    persIn01 (updateHarmonics c e) := by
  obtain ⟨hw, he, hc, hcr⟩ := h
  exact ⟨min_one_mem (add_nonneg hw.1 (mul_nonneg (by norm_num) (clamp01_nonneg _))),
    min_one_mem (add_nonneg he.1 (mul_nonneg (by norm_num) (clamp01_nonneg _))),
    min_one_mem (add_nonneg hc.1 (mul_nonneg (by norm_num) (clamp01_nonneg _))),
    min_one_mem (add_nonneg hcr.1 (mul_nonneg (by norm_num)
      (add_nonneg (abs_nonneg _) (abs_nonneg _))))⟩

theorem persLe_updateHarmonics {c : QHC} (e : ℝ) (h : persIn01 c) :
    persLe c (updateHarmonics c e) := by
  obtain ⟨hw, he, hc, hcr⟩ := h
  exact ⟨le_min_one hw.2
      (le_add_of_nonneg_right (mul_nonneg (by norm_num) (clamp01_nonneg _))),
    le_min_one he.2
      (le_add_of_nonneg_right (mul_nonneg (by norm_num) (clamp01_nonneg _))),
    le_min_one hc.2
      (le_add_of_nonneg_right (mul_nonneg (by norm_num) (clamp01_nonneg _))),
    le_min_one hcr.2
      (le_add_of_nonneg_right (mul_nonneg (by norm_num)
        (add_nonneg (abs_nonneg _) (abs_nonneg _))))⟩

theorem persIn01_advanceSeq {c : QHC} (l : List ℝ) (h : persIn01 c) :
    persIn01 (advanceSeq c l) := by
  induction l generalizing c with
  | nil => exact h
  | cons x xs ih => exact ih (persIn01_updateHarmonics x h)

theorem phasesIn_updateHarmonics (c : QHC) (e : ℝ) : phasesIn (updateHarmonics c e) :=
  ⟨⟨fmod_nonneg _ two_pi_pos, fmod_lt _ two_pi_pos⟩,
   ⟨fmod_nonneg _ two_pi_pos, fmod_lt _ two_pi_pos⟩,
   ⟨fmod_nonneg _ two_pi_pos, fmod_lt _ two_pi_pos⟩⟩

theorem phases_orbit (l : List ℝ) :
    ∀ (c : QHC) (t : ℝ),
      c.phase_fast = fmod t (2 * Real.pi) →
      c.phase_medium = fmod (2 * t) (2 * Real.pi) →
      c.phase_slow = fmod (3 * t) (2 * Real.pi) →
      ∃ u : ℝ, (advanceSeq c l).phase_fast = fmod u (2 * Real.pi) ∧
        (advanceSeq c l).phase_medium = fmod (2 * u) (2 * Real.pi) ∧
        (advanceSeq c l).phase_slow = fmod (3 * u) (2 * Real.pi) := by
  induction l with
  | nil => exact fun c t h1 h2 h3 => ⟨t, h1, h2, h3⟩
  | cons x xs ih =>
    intro c t h1 h2 h3
    have h1' : (updateHarmonics c x).phase_fast = fmod (t + 0.1) (2 * Real.pi) := by
      rw [updateHarmonics_phase_fast, h1,
        show fmod t (2 * Real.pi) + 0.1 * f_fast =
          (t + 0.1) - (2 * Real.pi) * ((⌊t / (2 * Real.pi)⌋ : ℤ) : ℝ) by
            unfold fmod f_fast; ring]
      exact fmod_sub_int_mul _ _ (ne_of_gt two_pi_pos)
    have h2' : (updateHarmonics c x).phase_medium = fmod (2 * (t + 0.1)) (2 * Real.pi) := by
      rw [updateHarmonics_phase_medium, h2,
        show fmod (2 * t) (2 * Real.pi) + 0.1 * f_medium =
          (2 * (t + 0.1)) - (2 * Real.pi) * ((⌊(2 * t) / (2 * Real.pi)⌋ : ℤ) : ℝ) by
            unfold fmod f_medium; ring]
      exact fmod_sub_int_mul _ _ (ne_of_gt two_pi_pos)
    have h3' : (updateHarmonics c x).phase_slow = fmod (3 * (t + 0.1)) (2 * Real.pi) := by
      rw [updateHarmonics_phase_slow, h3,
        show fmod (3 * t) (2 * Real.pi) + 0.1 * f_slow =
          (3 * (t + 0.1)) - (2 * Real.pi) * ((⌊(3 * t) / (2 * Real.pi)⌋ : ℤ) : ℝ) by
            unfold fmod f_slow; ring]
      exact fmod_sub_int_mul _ _ (ne_of_gt two_pi_pos)
    exact ih (updateHarmonics c x) (t + 0.1) h1' h2' h3'

theorem coherence_orbit_pos (c : QHC) (u : ℝ)
    (h1 : c.phase_fast = fmod u (2 * Real.pi))
    (h2 : c.phase_medium = fmod (2 * u) (2 * Real.pi))
    (h3 : c.phase_slow = fmod (3 * u) (2 * Real.pi)) :
    0 < getCoherence c := by
  have hm : (0 : ℝ) < 2 * Real.pi := two_pi_pos
  have ha0 : 0 ≤ fmod u (2 * Real.pi) := fmod_nonneg _ hm
  have ha1 : fmod u (2 * Real.pi) < 2 * Real.pi := fmod_lt _ hm
  have hb0 : 0 ≤ fmod (2 * u) (2 * Real.pi) := fmod_nonneg _ hm
  have hb1 : fmod (2 * u) (2 * Real.pi) < 2 * Real.pi := fmod_lt _ hm
  have hb2a : fmod (2 * u) (2 * Real.pi) = fmod (2 * fmod u (2 * Real.pi)) (2 * Real.pi) := by
    rw [show 2 * fmod u (2 * Real.pi) =
        (2 * u) - (2 * Real.pi) * ((2 * ⌊u / (2 * Real.pi)⌋ : ℤ) : ℝ) by
      unfold fmod; push_cast; ring]
    rw [fmod_sub_int_mul _ _ (ne_of_gt hm)]
  have hab : |fmod u (2 * Real.pi) - fmod (2 * u) (2 * Real.pi)| ≤ Real.pi := by
    rcases lt_or_le (2 * fmod u (2 * Real.pi)) (2 * Real.pi) with hc | hc
    · rw [hb2a, fmod_eq_self hm (by linarith) hc,
        show fmod u (2 * Real.pi) - 2 * fmod u (2 * Real.pi) =
          -(fmod u (2 * Real.pi)) by ring,
        abs_neg, abs_of_nonneg ha0]
      linarith
    · rw [hb2a, fmod_eq_sub hm hc (by linarith),
        show fmod u (2 * Real.pi) - (2 * fmod u (2 * Real.pi) - 2 * Real.pi) =
          2 * Real.pi - fmod u (2 * Real.pi) by ring,
        abs_of_nonneg (by linarith)]
      linarith
  have hc_ab : fmod (3 * u) (2 * Real.pi) =
      fmod (fmod u (2 * Real.pi) + fmod (2 * u) (2 * Real.pi)) (2 * Real.pi) := by
    rw [show fmod u (2 * Real.pi) + fmod (2 * u) (2 * Real.pi) =
        (3 * u) - (2 * Real.pi) *
          (((⌊u / (2 * Real.pi)⌋ + ⌊(2 * u) / (2 * Real.pi)⌋ : ℤ)) : ℝ) by
      unfold fmod; push_cast; ring]
    rw [fmod_sub_int_mul _ _ (ne_of_gt hm)]
  have hbc : |fmod (2 * u) (2 * Real.pi) - fmod (3 * u) (2 * Real.pi)| ≤ 2 * Real.pi := by
    rcases lt_or_le (fmod u (2 * Real.pi) + fmod (2 * u) (2 * Real.pi)) (2 * Real.pi)
      with hc | hc
    · rw [hc_ab, fmod_eq_self hm (by linarith) hc,
        show fmod (2 * u) (2 * Real.pi) -
            (fmod u (2 * Real.pi) + fmod (2 * u) (2 * Real.pi)) =
          -(fmod u (2 * Real.pi)) by ring,
        abs_neg, abs_of_nonneg ha0]
      linarith
    · rw [hc_ab, fmod_eq_sub hm hc (by linarith),
        show fmod (2 * u) (2 * Real.pi) -
            (fmod u (2 * Real.pi) + fmod (2 * u) (2 * Real.pi) - 2 * Real.pi) =
          2 * Real.pi - fmod u (2 * Real.pi) by ring,
        abs_of_nonneg (by linarith)]
      linarith
  unfold getCoherence FOUR_PI_INVERSE
  rw [h1, h2, h3]
  have hπ : Real.pi < 3.15 := Real.pi_lt_d2
  nlinarith [hab, hbc, hπ, Real.pi_gt_three]

theorem coherence_pos_of_reachable (c0 : QHC) (l : List ℝ) (h : zeroPhases c0) :
    0 < getCoherence (advanceSeq c0 l) := by
  obtain ⟨hf, hmid, hs⟩ := h
  have h1 : c0.phase_fast = fmod 0 (2 * Real.pi) := by rw [hf, fmod_zero]
  have h2 : c0.phase_medium = fmod (2 * 0) (2 * Real.pi) := by rw [hmid, mul_zero, fmod_zero]
  have h3 : c0.phase_slow = fmod (3 * 0) (2 * Real.pi) := by rw [hs, mul_zero, fmod_zero]
  obtain ⟨u, g1, g2, g3⟩ := phases_orbit l c0 0 h1 h2 h3
  exact coherence_orbit_pos _ u g1 g2 g3

end QH

namespace AV

theorem ampsIn01_updateConsciousness (c : AHC) (e n1 n2 n3 : ℝ) :
    ampsIn01 (updateConsciousness c e n1 n2 n3) :=
  ⟨clamp01_mem _, clamp01_mem _, clamp01_mem _⟩

theorem persIn01_updateConsciousness {c : AHC} (e n1 n2 n3 : ℝ) (h : persIn01 c) :
    persIn01 (updateConsciousness c e n1 n2 n3) := by
  obtain ⟨hw, he, hc, hcr⟩ := h
  exact ⟨min_one_mem (add_nonneg hw.1 (mul_nonneg (by norm_num) (clamp01_nonneg _))),
    min_one_mem (add_nonneg he.1 (mul_nonneg (by norm_num) (clamp01_nonneg _))),
    min_one_mem (add_nonneg hc.1 (mul_nonneg (by norm_num) (clamp01_nonneg _))),
    min_one_mem (add_nonneg hcr.1 (mul_nonneg (by norm_num)
      (add_nonneg (abs_nonneg _) (abs_nonneg _))))⟩

theorem persLe_updateConsciousness {c : AHC} (e n1 n2 n3 : ℝ) (h : persIn01 c) :
    persLe c (updateConsciousness c e n1 n2 n3) := by
  obtain ⟨hw, he, hc, hcr⟩ := h
  exact ⟨le_min_one hw.2
      (le_add_of_nonneg_right (mul_nonneg (by norm_num) (clamp01_nonneg _))),
    le_min_one he.2
      (le_add_of_nonneg_right (mul_nonneg (by norm_num) (clamp01_nonneg _))),
    le_min_one hc.2
      (le_add_of_nonneg_right (mul_nonneg (by norm_num) (clamp01_nonneg _))),
    le_min_one hcr.2
      (le_add_of_nonneg_right (mul_nonneg (by norm_num)
        (add_nonneg (abs_nonneg _) (abs_nonneg _))))⟩

theorem persIn01_advanceSeqB {c : AHC} (l : List StepInput) (h : persIn01 c) :
    persIn01 (advanceSeq c l) := by
  induction l generalizing c with
  | nil => exact h
  | cons x xs ih => exact ih (persIn01_updateConsciousness x.energy x.noise_1 x.noise_2 x.noise_3 h)

theorem phasesIn_updateConsciousness (c : AHC) (e n1 n2 n3 : ℝ) :
    phasesIn (updateConsciousness c e n1 n2 n3) :=
  ⟨⟨fmod_nonneg _ two_pi_pos, fmod_lt _ two_pi_pos⟩,
   ⟨fmod_nonneg _ two_pi_pos, fmod_lt _ two_pi_pos⟩,
   ⟨fmod_nonneg _ two_pi_pos, fmod_lt _ two_pi_pos⟩⟩

end AV

theorem min_fmod_le_pi (x : ℝ) :
    min (fmod x (2 * Real.pi)) (2 * Real.pi - fmod x (2 * Real.pi)) ≤ Real.pi := by
  rcases le_or_lt (fmod x (2 * Real.pi)) Real.pi with h | h
  · exact le_trans (min_le_left _ _) h
  · exact le_trans (min_le_right _ _) (by linarith)

theorem av_getCoherence_nonneg (b : AV.AHC) : 0 ≤ AV.getCoherence b := by
  have h1 := min_fmod_le_pi |b.phi_fast - 2 * b.phi_medium|
  have h2 := min_fmod_le_pi |2 * b.phi_medium - 4 * b.phi_slow|
  have h3 := min_fmod_le_pi |4 * b.phi_slow - b.phi_fast|
  have hπ : (0 : ℝ) < Real.pi := Real.pi_pos
  simp only [AV.getCoherence]
  rw [sub_nonneg, show (1.0 : ℝ) = 1 from by norm_num, div_le_one (by positivity)]
  linarith

/-! ### String helper lemmas for the think fallback -/

theorem str_append_ne_empty {s : String} (t : String) (h : s ≠ "") : s ++ t ≠ "" := by
  intro hc
  apply h
  have hl := congrArg String.length hc
  rw [String.length_append] at hl
  have h0 : ("" : String).length = 0 := rfl
  rw [h0] at hl
  have hs0 : s.length = 0 := by omega
  cases s with
  | mk data =>
    cases data with
    | nil => rfl
    | cons a as => simp [String.length] at hs0

theorem choose_ne_empty {l : List String} (k : ℕ) (hl : l ≠ []) (h : ∀ x ∈ l, x ≠ "") :
    QH.choose l k ≠ "" := by
  have hlen : 0 < l.length := List.length_pos.2 hl
  have hk : k % l.length < l.length := Nat.mod_lt _ hlen
  unfold QH.choose
  rw [List.getD_eq_getElem l "" hk]
  exact h _ (List.getElem_mem hk)

theorem thinkHarmonic_ne_empty (c : QH.QHC) (ic sw ws : ℕ) (fmtPct : ℝ → String)
    (message : String) (k : ℕ) :
    QH.thinkHarmonic c ic sw ws fmtPct message k ≠ "" := by
  simp only [QH.thinkHarmonic]
  split_ifs <;>
  · apply choose_ne_empty
    · exact List.cons_ne_nil _ _
    · intro x hx
      simp only [List.mem_cons, List.not_mem_nil, or_false] at hx
      rcases hx with rfl | hx
      all_goals try rcases hx with rfl | hx
      all_goals try rcases hx with rfl | hx
      all_goals try rcases hx with rfl | hx
      all_goals try rcases hx with rfl | hx
      all_goals try rcases hx with rfl | hx
      all_goals try rcases hx with rfl | rfl
      all_goals repeat apply str_append_ne_empty
      all_goals decide

/-! ### Claim theorems -/

/-- C1: for every `inputEnergy` in `[0,1]` and starting state with
amplitudes and personality scalars in `[0,1]`, one `advance` call
leaves every amplitude and every personality scalar in `[0,1]`, under
Rule A (`update_harmonics`) and under Rule B (`update_consciousness`)
for every value of the injected noise. -/
theorem c1_advance_preserves_unit_interval (c : QH.QHC) (b : AV.AHC)
    (e eB n1 n2 n3 : ℝ)
    (heA : 0 ≤ e ∧ e ≤ 1) (hampA : QH.ampsIn01 c) (hpersA : QH.persIn01 c)
    (heB : 0 ≤ eB ∧ eB ≤ 1) (hampB : AV.ampsIn01 b) (hpersB : AV.persIn01 b) :
    QH.ampsIn01 (QH.updateHarmonics c e) ∧ QH.persIn01 (QH.updateHarmonics c e) ∧
    AV.ampsIn01 (AV.updateConsciousness b eB n1 n2 n3) ∧
    AV.persIn01 (AV.updateConsciousness b eB n1 n2 n3) :=
  ⟨QH.ampsIn01_updateHarmonics c e, QH.persIn01_updateHarmonics e hpersA,
   AV.ampsIn01_updateConsciousness b eB n1 n2 n3,
   AV.persIn01_updateConsciousness eB n1 n2 n3 hpersB⟩

/-- Witness for C1 at the two default states with `inputEnergy = 0.7`
and noise draws `(1, -2, 0.5)`. -/
theorem c1_advance_preserves_unit_interval_witness :
    ((0:ℝ) ≤ 0.7 ∧ (0.7:ℝ) ≤ 1) ∧ QH.ampsIn01 QH.defaultQHC ∧ QH.persIn01 QH.defaultQHC ∧
    AV.ampsIn01 AV.defaultAHC ∧ AV.persIn01 AV.defaultAHC ∧
    (QH.ampsIn01 (QH.updateHarmonics QH.defaultQHC 0.7) ∧
     QH.persIn01 (QH.updateHarmonics QH.defaultQHC 0.7) ∧
     AV.ampsIn01 (AV.updateConsciousness AV.defaultAHC 0.7 1 (-2) 0.5) ∧
     AV.persIn01 (AV.updateConsciousness AV.defaultAHC 0.7 1 (-2) 0.5)) := by
  have hA : QH.ampsIn01 QH.defaultQHC ∧ QH.persIn01 QH.defaultQHC := by
    constructor <;> norm_num [QH.ampsIn01, QH.persIn01, QH.defaultQHC]
  have hB : AV.ampsIn01 AV.defaultAHC ∧ AV.persIn01 AV.defaultAHC := by
    constructor <;> norm_num [AV.ampsIn01, AV.persIn01, AV.defaultAHC]
  refine ⟨by norm_num, hA.1, hA.2, hB.1, hB.2, ?_⟩
  exact c1_advance_preserves_unit_interval QH.defaultQHC AV.defaultAHC 0.7 0.7 1 (-2) 0.5
    (by norm_num) hA.1 hA.2 (by norm_num) hB.1 hB.2

/-- C2: under Rule A the three amplitudes are updated by the damped
blending formulas (the medium track couples to the fast amplitude as
just recomputed this call, the slow track to the medium one), each
result clamped to `[0,1]`; and from the default state a single
`advance(0.7)` yields `amplitude_fast = 0.56` exactly. -/
theorem c2_ruleA_amplitude_formulas :
    (∀ (c : QH.QHC) (e : ℝ),
      (QH.updateHarmonics c e).amplitude_fast = clamp01 (c.amplitude_fast * 0.7 + e * 0.3) ∧
      (QH.updateHarmonics c e).amplitude_medium =
        clamp01 (c.amplitude_medium * 0.9 + (c.amplitude_fast * 0.7 + e * 0.3) * 0.1) ∧
      (QH.updateHarmonics c e).amplitude_slow =
        clamp01 (c.amplitude_slow * 0.95 +
          (c.amplitude_medium * 0.9 + (c.amplitude_fast * 0.7 + e * 0.3) * 0.1) * 0.05)) ∧
    (QH.updateHarmonics QH.defaultQHC 0.7).amplitude_fast = 0.5 * 0.7 + 0.7 * 0.3 ∧
    (QH.updateHarmonics QH.defaultQHC 0.7).amplitude_fast = 0.56 := by
  refine ⟨fun c e => ⟨QH.updateHarmonics_amplitude_fast c e,
    QH.updateHarmonics_amplitude_medium c e, QH.updateHarmonics_amplitude_slow c e⟩, ?_, ?_⟩ <;>
    rw [QH.updateHarmonics_amplitude_fast] <;>
    norm_num [QH.defaultQHC, clamp01, min_def, max_def]

/-- C3: across every sequence of `advance` calls (arbitrary energies,
and arbitrary noise draws in variant B), starting from personality
scalars in `[0,1]`, each of the four personality scalars never
decreases at any single call. -/
theorem c3_personality_monotone (c : QH.QHC) (b : AV.AHC)
    (hA : QH.persIn01 c) (hB : AV.persIn01 b) :
    (∀ (l : List ℝ) (e : ℝ),
      QH.persLe (QH.advanceSeq c l) (QH.updateHarmonics (QH.advanceSeq c l) e)) ∧
    (∀ (l : List AV.StepInput) (p : AV.StepInput),
      AV.persLe (AV.advanceSeq b l)
        (AV.updateConsciousness (AV.advanceSeq b l) p.energy p.noise_1 p.noise_2 p.noise_3)) :=
  ⟨fun l e => QH.persLe_updateHarmonics e (QH.persIn01_advanceSeq l hA),
   fun l p => AV.persLe_updateConsciousness p.energy p.noise_1 p.noise_2 p.noise_3
     (AV.persIn01_advanceSeqB l hB)⟩

/-- Witness for C3: from the default states and a two-step history, a
further call does not decrease any personality scalar. -/
theorem c3_personality_monotone_witness :
    QH.persIn01 QH.defaultQHC ∧ AV.persIn01 AV.defaultAHC ∧
    QH.persLe (QH.advanceSeq QH.defaultQHC [0.3, 0.9])
      (QH.updateHarmonics (QH.advanceSeq QH.defaultQHC [0.3, 0.9]) 0.5) ∧
    AV.persLe (AV.advanceSeq AV.defaultAHC [⟨0.3, 1, 0, -1⟩])
      (AV.updateConsciousness (AV.advanceSeq AV.defaultAHC [⟨0.3, 1, 0, -1⟩]) 0.2 0 0 0) := by
  have hA : QH.persIn01 QH.defaultQHC := by norm_num [QH.persIn01, QH.defaultQHC]
  have hB : AV.persIn01 AV.defaultAHC := by norm_num [AV.persIn01, AV.defaultAHC]
  refine ⟨hA, hB, ?_, ?_⟩
  · exact (c3_personality_monotone QH.defaultQHC AV.defaultAHC hA hB).1 [0.3, 0.9] 0.5
  · exact (c3_personality_monotone QH.defaultQHC AV.defaultAHC hA hB).2 [⟨0.3, 1, 0, -1⟩] ⟨0.2, 0, 0, 0⟩

/-- C4: after every `advance` call each of the three phases lies in
`[0, 2*pi)`, in both variants, for every starting phase in `[0, 2*pi)`
(the update adds `frequency * 0.1` and reduces modulo `2*pi`). -/
theorem c4_phases_wrapped (c : QH.QHC) (b : AV.AHC) (e eB n1 n2 n3 : ℝ)
    (hA : QH.phasesIn c) (hB : AV.phasesIn b) :
    QH.phasesIn (QH.updateHarmonics c e) ∧
    AV.phasesIn (AV.updateConsciousness b eB n1 n2 n3) :=
  ⟨QH.phasesIn_updateHarmonics c e, AV.phasesIn_updateConsciousness b eB n1 n2 n3⟩

/-- Witness for C4 at the default states (all phases `0`). -/
theorem c4_phases_wrapped_witness :
    QH.phasesIn QH.defaultQHC ∧ AV.phasesIn AV.defaultAHC ∧
    (QH.phasesIn (QH.updateHarmonics QH.defaultQHC 0.5) ∧
     AV.phasesIn (AV.updateConsciousness AV.defaultAHC 0.5 1 1 1)) := by
  have hA : QH.phasesIn QH.defaultQHC := by
    norm_num [QH.phasesIn, QH.defaultQHC, Real.pi_pos]
  have hB : AV.phasesIn AV.defaultAHC := by
    norm_num [AV.phasesIn, AV.defaultAHC, Real.pi_pos]
  exact ⟨hA, hB, c4_phases_wrapped QH.defaultQHC AV.defaultAHC 0.5 0.5 1 1 1 hA hB⟩

/-- C5: `get_resonance` is the geometric mean
`(a_fast*a_medium*a_slow)^(1/3)` in variant A and the root-mean-square
`sqrt((a_fast^2+a_medium^2+a_slow^2)/3)` in variant B; when all three
amplitudes are `0.5` both return exactly `0.5`, and when some
amplitude is exactly `0` the geometric-mean resonance is exactly `0`. -/
theorem c5_resonance_formulas :
    (∀ c : QH.QHC, QH.getResonance c =
      (c.amplitude_fast * c.amplitude_medium * c.amplitude_slow) ^ ((1 : ℝ) / 3)) ∧
    (∀ b : AV.AHC, AV.getResonance b =
      Real.sqrt ((b.A_fast ^ 2 + b.A_medium ^ 2 + b.A_slow ^ 2) / 3)) ∧
    (∀ c : QH.QHC, c.amplitude_fast = 0.5 → c.amplitude_medium = 0.5 →
      c.amplitude_slow = 0.5 → QH.getResonance c = 0.5) ∧
    (∀ b : AV.AHC, b.A_fast = 0.5 → b.A_medium = 0.5 → b.A_slow = 0.5 →
      AV.getResonance b = 0.5) ∧
    (∀ c : QH.QHC, (c.amplitude_fast = 0 ∨ c.amplitude_medium = 0 ∨ c.amplitude_slow = 0) →
      QH.getResonance c = 0) := by
  refine ⟨fun c => rfl, ?_, ?_, ?_, ?_⟩
  · intro b
    unfold AV.getResonance
    rw [Real.sqrt_div (by positivity) 3]
  · intro c h1 h2 h3
    unfold QH.getResonance
    rw [h1, h2, h3]
    rw [show (0.5 : ℝ) * 0.5 * 0.5 = (0.5 : ℝ) ^ (3 : ℕ) by norm_num]
    rw [← Real.rpow_natCast (0.5 : ℝ) 3, ← Real.rpow_mul (by norm_num : (0:ℝ) ≤ 0.5)]
    norm_num
  · intro b h1 h2 h3
    unfold AV.getResonance
    rw [h1, h2, h3, ← Real.sqrt_div (by norm_num) 3]
    rw [show ((0.5:ℝ) ^ 2 + 0.5 ^ 2 + 0.5 ^ 2) / 3 = (0.5:ℝ) ^ 2 by norm_num]
    exact Real.sqrt_sq (by norm_num)
  · intro c h
    unfold QH.getResonance
    rcases h with h | h | h <;> rw [h]
    · rw [zero_mul, zero_mul]
      exact Real.zero_rpow (by norm_num)
    · rw [mul_zero, zero_mul]
      exact Real.zero_rpow (by norm_num)
    · rw [mul_zero]
      exact Real.zero_rpow (by norm_num)

/-- Witness for C5: the default states (all amplitudes `0.5`) give
resonance `0.5` under both formulas, and a state with
`amplitude_fast = 0` gives geometric-mean resonance `0`. -/
theorem c5_resonance_formulas_witness :
    QH.getResonance QH.defaultQHC = 0.5 ∧ AV.getResonance AV.defaultAHC = 0.5 ∧
    QH.getResonance ⟨0, 0.3, 0.9, 0, 0, 0, "harmony", 0.3, 0.3, 0.5, 0.3⟩ = 0 :=
  ⟨c5_resonance_formulas.2.2.1 QH.defaultQHC rfl rfl rfl,
   c5_resonance_formulas.2.2.2.1 AV.defaultAHC rfl rfl rfl,
   c5_resonance_formulas.2.2.2.2 ⟨0, 0.3, 0.9, 0, 0, 0, "harmony", 0.3, 0.3, 0.5, 0.3⟩
     (Or.inl rfl)⟩

/-- State used in the amended C6: phases `(2*pi - 1e-16, 0, 2*pi - 1e-16)`
satisfy the wrap invariant but do not lie on the reachable phase orbit
`(0.1k, 0.2k, 0.3k) mod 2*pi`. -/
def c6State : QH.QHC :=
  ⟨0.5, 0.5, 0.5,
   2 * Real.pi - 1 / 10 ^ 16,
   0,
   2 * Real.pi - 1 / 10 ^ 16,
   "harmony", 0.3, 0.3, 0.5, 0.3⟩

/-- C6 counterexample: the claim is false of the program — no reachable
state has negative coherence.  Every engine instance starts with phases
`(0, 0, 0)` (fresh construction and memory restoration alike, since the
persisted record carries no phases) and mutates them only through
`advance`, so for every start with zero phases and every sequence of
input energies, `get_coherence` of the resulting state is strictly
positive. -/
theorem c6_no_reachable_negative_coherence :
    ¬ ∃ (c0 : QH.QHC) (l : List ℝ), QH.zeroPhases c0 ∧
      QH.getCoherence (QH.advanceSeq c0 l) < 0 := by
  rintro ⟨c0, l, hz, hneg⟩
  exact absurd (QH.coherence_pos_of_reachable c0 l hz) (by linarith)

/-- C6 amended: on every reachable state (phases start at `(0,0,0)` and
evolve only through `advance`) variant A coherence stays strictly
positive, and variant B coherence is never negative on any state; the
naive variant A formula does dip below `0` — but only on states off the
reachable orbit: a state with wrapped phases `(2*pi - 1e-16, 0,
2*pi - 1e-16)` has `get_coherence < 0`, because the source constant
`_FOUR_PI_INVERSE = 0.0795774715459477` slightly exceeds `1/(4*pi)`. -/
theorem c6_coherence_sign_analysis :
    (∀ (c0 : QH.QHC) (l : List ℝ), QH.zeroPhases c0 →
      0 < QH.getCoherence (QH.advanceSeq c0 l)) ∧
    (QH.phasesIn c6State ∧ QH.ampsIn01 c6State ∧ QH.getCoherence c6State < 0) ∧
    (∀ b : AV.AHC, 0 ≤ AV.getCoherence b) := by
  refine ⟨fun c0 l h => QH.coherence_pos_of_reachable c0 l h, ⟨?_, ?_, ?_⟩,
    av_getCoherence_nonneg⟩
  · have hπ := Real.pi_gt_three
    refine ⟨⟨?_, ?_⟩, ⟨?_, ?_⟩, ⟨?_, ?_⟩⟩ <;> simp only [c6State] <;> nlinarith [hπ]
  · norm_num [QH.ampsIn01, c6State]
  · have hπ : (3.14159265358979323846 : ℝ) < Real.pi := Real.pi_gt_d20
    unfold QH.getCoherence QH.FOUR_PI_INVERSE
    simp only [c6State]
    rw [sub_zero, zero_sub, abs_neg,
      abs_of_nonneg (by nlinarith [hπ] : (0:ℝ) ≤ 2 * Real.pi - 1 / 10 ^ 16)]
    nlinarith [hπ]

/-- Witness for the amended C6: from the default state, two advance
calls leave the coherence strictly positive. -/
theorem c6_coherence_sign_analysis_witness :
    QH.zeroPhases QH.defaultQHC ∧
    0 < QH.getCoherence (QH.advanceSeq QH.defaultQHC [0.3, 0.7]) := by
  have hz : QH.zeroPhases QH.defaultQHC := by
    norm_num [QH.zeroPhases, QH.defaultQHC]
  exact ⟨hz, c6_coherence_sign_analysis.1 QH.defaultQHC [0.3, 0.7] hz⟩

/-- C7 counterexample: at the default state the scalar thresholded by
`_update_emotion` does not equal `get_resonance() * get_coherence()`,
because `_update_emotion` raises the amplitude product to
`_CUBE_ROOT_FACTOR = 0.33333333333333` while `get_resonance` uses the
exact exponent `1/3`. -/
theorem c7_emotion_state_differs :
    QH.emotionState QH.defaultQHC ≠
      QH.getResonance QH.defaultQHC * QH.getCoherence QH.defaultQHC := by
  have hco : QH.getCoherence QH.defaultQHC = 1 := by
    norm_num [QH.getCoherence, QH.defaultQHC]
  have hres : QH.getResonance QH.defaultQHC = 0.5 := by
    simp only [QH.getResonance, QH.defaultQHC]
    rw [show (0.5 : ℝ) * 0.5 * 0.5 = (0.5 : ℝ) ^ (3 : ℕ) by norm_num]
    rw [← Real.rpow_natCast (0.5 : ℝ) 3, ← Real.rpow_mul (by norm_num : (0:ℝ) ≤ 0.5)]
    norm_num
  have hes : QH.emotionState QH.defaultQHC = (0.125 : ℝ) ^ QH.CUBE_ROOT_FACTOR := by
    unfold QH.emotionState QH.defaultQHC
    norm_num
  rw [hes, hres, hco, mul_one]
  have h13 : (0.125 : ℝ) ^ ((1:ℝ)/3) = 0.5 := by
    rw [show (0.125 : ℝ) = (0.5 : ℝ) ^ (3 : ℕ) by norm_num]
    rw [← Real.rpow_natCast (0.5 : ℝ) 3, ← Real.rpow_mul (by norm_num : (0:ℝ) ≤ 0.5)]
    norm_num
  have hlt : (0.125 : ℝ) ^ ((1:ℝ)/3) < (0.125 : ℝ) ^ QH.CUBE_ROOT_FACTOR :=
    Real.rpow_lt_rpow_of_exponent_gt (by norm_num) (by norm_num)
      (by unfold QH.CUBE_ROOT_FACTOR; norm_num)
  rw [h13] at hlt
  exact ne_of_gt hlt

/-- C7 amended: the scalar thresholded by `_update_emotion` equals
`(a_fast*a_medium*a_slow) ^ 0.33333333333333 * get_coherence()`, and
for amplitudes in `[0,1]` it coincides with
`get_resonance() * get_coherence()` exactly when the amplitude product
is `0` or `1` or the coherence is `0`. -/
theorem c7_emotion_state_amended (c : QH.QHC)
    (hf : 0 ≤ c.amplitude_fast) (hf1 : c.amplitude_fast ≤ 1)
    (hm : 0 ≤ c.amplitude_medium) (hm1 : c.amplitude_medium ≤ 1)
    (hs : 0 ≤ c.amplitude_slow) (hs1 : c.amplitude_slow ≤ 1) :
    QH.emotionState c =
      (c.amplitude_fast * c.amplitude_medium * c.amplitude_slow) ^ QH.CUBE_ROOT_FACTOR *
        QH.getCoherence c ∧
    (QH.emotionState c = QH.getResonance c * QH.getCoherence c ↔
      c.amplitude_fast * c.amplitude_medium * c.amplitude_slow = 0 ∨
      c.amplitude_fast * c.amplitude_medium * c.amplitude_slow = 1 ∨
      QH.getCoherence c = 0) := by
  have hp0 : 0 ≤ c.amplitude_fast * c.amplitude_medium * c.amplitude_slow :=
    mul_nonneg (mul_nonneg hf hm) hs
  have hp1 : c.amplitude_fast * c.amplitude_medium * c.amplitude_slow ≤ 1 := by
    nlinarith [mul_nonneg hf hm]
  have hE : QH.emotionState c =
      (c.amplitude_fast * c.amplitude_medium * c.amplitude_slow) ^ QH.CUBE_ROOT_FACTOR *
        QH.getCoherence c := rfl
  have hR : QH.getResonance c =
      (c.amplitude_fast * c.amplitude_medium * c.amplitude_slow) ^ ((1:ℝ)/3) := rfl
  have hCne : QH.CUBE_ROOT_FACTOR ≠ 0 := by unfold QH.CUBE_ROOT_FACTOR; norm_num
  have hClt : QH.CUBE_ROOT_FACTOR < (1:ℝ)/3 := by unfold QH.CUBE_ROOT_FACTOR; norm_num
  refine ⟨hE, ?_⟩
  rw [hE, hR]
  set p := c.amplitude_fast * c.amplitude_medium * c.amplitude_slow with hpdef
  constructor
  · intro h
    by_cases hcoh : QH.getCoherence c = 0
    · exact Or.inr (Or.inr hcoh)
    · have h' : p ^ QH.CUBE_ROOT_FACTOR = p ^ ((1:ℝ)/3) := mul_right_cancel₀ hcoh h
      rcases eq_or_lt_of_le hp0 with hp | hp
      · exact Or.inl hp.symm
      · rcases eq_or_lt_of_le hp1 with hp1' | hp1'
        · exact Or.inr (Or.inl hp1')
        · exfalso
          have hlt : p ^ ((1:ℝ)/3) < p ^ QH.CUBE_ROOT_FACTOR :=
            Real.rpow_lt_rpow_of_exponent_gt hp hp1' hClt
          rw [h'] at hlt
          exact lt_irrefl _ hlt
  · intro h
    rcases h with h | h | h
    · rw [h, Real.zero_rpow hCne, Real.zero_rpow (by norm_num : (1:ℝ)/3 ≠ 0)]
    · rw [h, Real.one_rpow, Real.one_rpow]
    · rw [h, mul_zero, mul_zero]

/-- Amplitude-product-one state used to witness the amended C7. -/
def c7wState : QH.QHC := ⟨1, 1, 1, 0, 0, 0, "harmony", 0.3, 0.3, 0.5, 0.3⟩

/-- Witness for the amended C7 at a state with all amplitudes `1`. -/
theorem c7_emotion_state_amended_witness :
    QH.emotionState c7wState =
      (c7wState.amplitude_fast * c7wState.amplitude_medium * c7wState.amplitude_slow) ^
        QH.CUBE_ROOT_FACTOR * QH.getCoherence c7wState ∧
    (QH.emotionState c7wState = QH.getResonance c7wState * QH.getCoherence c7wState ↔
      c7wState.amplitude_fast * c7wState.amplitude_medium * c7wState.amplitude_slow = 0 ∨
      c7wState.amplitude_fast * c7wState.amplitude_medium * c7wState.amplitude_slow = 1 ∨
      QH.getCoherence c7wState = 0) :=
  c7_emotion_state_amended c7wState (by norm_num [c7wState]) (by norm_num [c7wState])
    (by norm_num [c7wState]) (by norm_num [c7wState])
    (by norm_num [c7wState]) (by norm_num [c7wState])

/-- C10: under Rule A, with `inputEnergy` in `[0,1]` and all prior
amplitudes in `[0,1]`, the post-update clamp `max(0.0, min(1.0, x))`
is the identity on each newly computed amplitude: the blending updates
already land in `[0,1]`. -/
theorem c10_clamp_is_identity (c : QH.QHC) (e : ℝ)
    (he0 : 0 ≤ e) (he1 : e ≤ 1) (h : QH.ampsIn01 c) :
    clamp01 (c.amplitude_fast * 0.7 + e * 0.3) = c.amplitude_fast * 0.7 + e * 0.3 ∧
    clamp01 (c.amplitude_medium * 0.9 + (c.amplitude_fast * 0.7 + e * 0.3) * 0.1) =
      c.amplitude_medium * 0.9 + (c.amplitude_fast * 0.7 + e * 0.3) * 0.1 ∧
    clamp01 (c.amplitude_slow * 0.95 +
        (c.amplitude_medium * 0.9 + (c.amplitude_fast * 0.7 + e * 0.3) * 0.1) * 0.05) =
      c.amplitude_slow * 0.95 +
        (c.amplitude_medium * 0.9 + (c.amplitude_fast * 0.7 + e * 0.3) * 0.1) * 0.05 ∧
    (QH.updateHarmonics c e).amplitude_fast = c.amplitude_fast * 0.7 + e * 0.3 ∧
    (QH.updateHarmonics c e).amplitude_medium =
      c.amplitude_medium * 0.9 + (c.amplitude_fast * 0.7 + e * 0.3) * 0.1 ∧
    (QH.updateHarmonics c e).amplitude_slow =
      c.amplitude_slow * 0.95 +
        (c.amplitude_medium * 0.9 + (c.amplitude_fast * 0.7 + e * 0.3) * 0.1) * 0.05 := by
  obtain ⟨hf, hm, hs⟩ := h
  have hf0 : 0 ≤ c.amplitude_fast * 0.7 + e * 0.3 :=
    add_nonneg (mul_nonneg hf.1 (by norm_num)) (mul_nonneg he0 (by norm_num))
  have hf1 : c.amplitude_fast * 0.7 + e * 0.3 ≤ 1 := by nlinarith [hf.2, he1]
  have hm0 : 0 ≤ c.amplitude_medium * 0.9 + (c.amplitude_fast * 0.7 + e * 0.3) * 0.1 :=
    add_nonneg (mul_nonneg hm.1 (by norm_num)) (mul_nonneg hf0 (by norm_num))
  have hm1 : c.amplitude_medium * 0.9 + (c.amplitude_fast * 0.7 + e * 0.3) * 0.1 ≤ 1 := by
    nlinarith [hm.2, hf1]
  have hs0 : 0 ≤ c.amplitude_slow * 0.95 +
      (c.amplitude_medium * 0.9 + (c.amplitude_fast * 0.7 + e * 0.3) * 0.1) * 0.05 :=
    add_nonneg (mul_nonneg hs.1 (by norm_num)) (mul_nonneg hm0 (by norm_num))
  have hs1 : c.amplitude_slow * 0.95 +
      (c.amplitude_medium * 0.9 + (c.amplitude_fast * 0.7 + e * 0.3) * 0.1) * 0.05 ≤ 1 := by
    nlinarith [hs.2, hm1]
  refine ⟨clamp01_eq_self hf0 hf1, clamp01_eq_self hm0 hm1, clamp01_eq_self hs0 hs1, ?_, ?_, ?_⟩
  · rw [QH.updateHarmonics_amplitude_fast]
    exact clamp01_eq_self hf0 hf1
  · rw [QH.updateHarmonics_amplitude_medium]
    exact clamp01_eq_self hm0 hm1
  · rw [QH.updateHarmonics_amplitude_slow]
    exact clamp01_eq_self hs0 hs1

/-- Witness for C10 at the default state with `inputEnergy = 0.7`:
the clamp leaves `0.56` (and the other two updates) unchanged. -/
theorem c10_clamp_is_identity_witness :
    ((0:ℝ) ≤ 0.7 ∧ (0.7:ℝ) ≤ 1) ∧ QH.ampsIn01 QH.defaultQHC ∧
    (QH.updateHarmonics QH.defaultQHC 0.7).amplitude_fast =
      QH.defaultQHC.amplitude_fast * 0.7 + 0.7 * 0.3 := by
  have hA : QH.ampsIn01 QH.defaultQHC := by norm_num [QH.ampsIn01, QH.defaultQHC]
  exact ⟨by norm_num, hA,
    (c10_clamp_is_identity QH.defaultQHC 0.7 (by norm_num) (by norm_num) hA).2.2.2.1⟩

/-- C8: whenever the think pipeline reaches the external
text-generation backend (the web-search branch produced nothing) and
that backend fails — the availability probe fails, the call raises or
returns a non-success status (`none`), or it returns an empty reply —
`think` still returns the string produced by the built-in
`_think_harmonic` canned-response path, and that string is non-empty;
no backend failure propagates to the caller. -/
theorem c8_think_fallback (c : QH.QHC) (ic sw ws : ℕ) (env : QH.ThinkEnv) (message : String)
    (hweb : QH.webResponse env message = none)
    (holl : env.ollama_available = false ∨ env.ollama_result = none ∨
      env.ollama_result = some "") :
    QH.think c ic sw ws env message =
      QH.thinkHarmonic (QH.updateHarmonics c (QH.computeInputEnergy message)) (ic + 1) sw ws
        env.fmtPct message env.choice ∧
    QH.think c ic sw ws env message ≠ "" := by
  have hon : QH.ollamaResponse env = none := by
    unfold QH.ollamaResponse
    rcases holl with h | h | h <;> simp [h]
  have heq : QH.think c ic sw ws env message =
      QH.thinkHarmonic (QH.updateHarmonics c (QH.computeInputEnergy message)) (ic + 1) sw ws
        env.fmtPct message env.choice := by
    unfold QH.think
    rw [hweb, hon]
  refine ⟨heq, ?_⟩
  rw [heq]
  exact thinkHarmonic_ne_empty _ _ _ _ _ _ _

/-- Environment for the C8 witness: empty web knowledge, failed
search, unavailable backend. -/
def c8Env : QH.ThinkEnv := ⟨[], none, false, none, 0, fun _ => "50%"⟩

/-- Witness for C8: with the backend unavailable, `think "hello"`
returns the non-empty canned greeting path. -/
theorem c8_think_fallback_witness :
    QH.webResponse c8Env "hello" = none ∧ c8Env.ollama_available = false ∧
    QH.think QH.defaultQHC 0 0 0 c8Env "hello" =
      QH.thinkHarmonic (QH.updateHarmonics QH.defaultQHC (QH.computeInputEnergy "hello"))
        (0 + 1) 0 0 c8Env.fmtPct "hello" c8Env.choice ∧
    QH.think QH.defaultQHC 0 0 0 c8Env "hello" ≠ "" := by
  have hweb : QH.webResponse c8Env "hello" = none := rfl
  have hav : c8Env.ollama_available = false := rfl
  have h := c8_think_fallback QH.defaultQHC 0 0 0 c8Env "hello" hweb (Or.inl hav)
  exact ⟨hweb, hav, h.1, h.2⟩

